import Mathlib

/-!
Verification of the coordinate-mapping layer of TrinityCore's grid system
(`src/server/game/Grids/GridDefines.h`).

Embedding conventions:
* C++ `float`/`double` coordinate arithmetic is embedded over `ℚ` with the
  exact rational values of the float constants involved.  Every constant that
  appears in the code is exactly representable after the source's own
  compile-time arithmetic:
  - `SIZE_OF_GRIDS = 533.3333f` rounds to the float `8738133/16384`
    (= 533.33331298828125), the nearest single-precision value to `533.3333`;
  - divisions and multiplications by powers of two (`/2`, `/8`, `*64`) are
    exact in binary floating point, so `CENTER_GRID_OFFSET`,
    `SIZE_OF_GRID_CELL`, `CENTER_GRID_CELL_OFFSET` and `MAP_HALFSIZE` are the
    exact rationals written below;
  - `MAP_HALFSIZE - 0.5f = 8737877/512` is again exactly representable
    (its numerator is below `2^24`), so the float subtraction is exact.
  The remaining double-precision rounding inside `Trinity::Compute` is not
  modelled; the theorems are about the exact-rational reading of the same
  expressions.
* Non-finite floats matter only for `IsValidMapCoord` / `NormalizeMapCoord`
  (`std::isfinite`), so coordinates entering those functions are modelled by
  `GFloat`, a rational extended with `+inf`, `-inf` and `NaN`.
* C++ `uint32` values are `ℕ` with explicit `% 2^32` where the source can
  overflow; C++ `int(double)` conversion truncates toward zero (`cppTrunc`).
-/

/-- Truncation toward zero of a rational, the semantics of C++ `int(double)`
conversion (C++ [conv.fpint]): floor for nonnegative values, ceiling for
negative ones. -/
def cppTrunc (q : ℚ) : ℤ :=
  if 0 ≤ q then ⌊q⌋ else ⌈q⌉

/-- Exact value of the float literal `533.3333f` (`SIZE_OF_GRIDS`):
the nearest single-precision float to 533.3333 is
`8738133 * 2⁻¹⁴ = 533.33331298828125`. -/
def SIZE_OF_GRIDS : ℚ := 8738133 / 16384

/-- Source macro `MAX_NUMBER_OF_CELLS = 8`. -/
def MAX_NUMBER_OF_CELLS : ℕ := 8

/-- Source macro `MAX_NUMBER_OF_GRIDS = 64`. -/
def MAX_NUMBER_OF_GRIDS : ℕ := 64

/-- Source macro `CENTER_GRID_ID = MAX_NUMBER_OF_GRIDS/2`. -/
def CENTER_GRID_ID : ℤ := 32

/-- Source macro `CENTER_GRID_OFFSET = SIZE_OF_GRIDS/2` (exact float op). -/
def CENTER_GRID_OFFSET : ℚ := SIZE_OF_GRIDS / 2

/-- Source macro `SIZE_OF_GRID_CELL = SIZE_OF_GRIDS/MAX_NUMBER_OF_CELLS`
(division by 8 is exact in float). -/
def SIZE_OF_GRID_CELL : ℚ := SIZE_OF_GRIDS / 8

/-- Source macro `CENTER_GRID_CELL_ID = MAX_NUMBER_OF_CELLS*MAX_NUMBER_OF_GRIDS/2`. -/
def CENTER_GRID_CELL_ID : ℤ := 256

/-- Source macro `CENTER_GRID_CELL_OFFSET = SIZE_OF_GRID_CELL/2` (exact float op). -/
def CENTER_GRID_CELL_OFFSET : ℚ := SIZE_OF_GRID_CELL / 2

/-- Source macro `TOTAL_NUMBER_OF_CELLS_PER_MAP = MAX_NUMBER_OF_GRIDS*MAX_NUMBER_OF_CELLS = 512`. -/
def TOTAL_NUMBER_OF_CELLS_PER_MAP : ℕ := MAX_NUMBER_OF_GRIDS * MAX_NUMBER_OF_CELLS

/-- Source macro `MAP_SIZE = SIZE_OF_GRIDS*MAX_NUMBER_OF_GRIDS`
(multiplication by 64 is exact in float). -/
def MAP_SIZE : ℚ := SIZE_OF_GRIDS * 64

/-- Source macro `MAP_HALFSIZE = MAP_SIZE/2` (exact float op);
equals `8738133/512 = 17066.666015625`. -/
def MAP_HALFSIZE : ℚ := MAP_SIZE / 2

/-- The bound `MAP_HALFSIZE - 0.5f` used by `IsValidMapCoord` and
`NormalizeMapCoord`; `8737877/512 = 17066.166015625`, exactly representable
in single precision, so the float subtraction in the source is exact. -/
def VALID_BOUND : ℚ := MAP_HALFSIZE - 1/2

/-- Model of a C++ `float` input: either a finite value (an exact rational)
or one of the non-finite values distinguished by `std::isfinite` and by
IEEE-754 comparison semantics. -/
inductive GFloat where
  | finite (q : ℚ)
  | posInf
  | negInf
  | nan
deriving DecidableEq, Repr

/-- Model of `std::isfinite`. -/
def GFloat.isFinite : GFloat → Bool
  | .finite _ => true
  | _ => false

/-- Modulus of C++ `uint32` arithmetic. -/
def U32 : ℕ := 2 ^ 32

/-- Source struct `CoordPair<LIMIT>`: a pair of `uint32` coordinates.
Components are naturals; all arithmetic on them carries the explicit
`% U32` of the source's `uint32` operations where overflow is possible. -/
structure CoordPair (LIMIT : ℕ) where
  x_coord : ℕ
  y_coord : ℕ
deriving DecidableEq, Repr

namespace CoordPair

/-- Source `dec_x`: `if (x_coord > val) x_coord -= val; else x_coord = 0;`
(the subtraction cannot wrap because it only runs when `x_coord > val`). -/
def dec_x {L : ℕ} (p : CoordPair L) (val : ℕ) : CoordPair L :=
  if p.x_coord > val then { p with x_coord := p.x_coord - val }
  else { p with x_coord := 0 }

/-- Source `inc_x`: `if (x_coord + val < LIMIT) x_coord += val; else
x_coord = LIMIT - 1;` — the sum `x_coord + val` is a `uint32` sum, i.e.
taken modulo `2^32`. -/
def inc_x {L : ℕ} (p : CoordPair L) (val : ℕ) : CoordPair L :=
  if (p.x_coord + val) % U32 < L then { p with x_coord := (p.x_coord + val) % U32 }
  else { p with x_coord := L - 1 }

/-- Source `dec_y`, symmetric to `dec_x`. -/
def dec_y {L : ℕ} (p : CoordPair L) (val : ℕ) : CoordPair L :=
  if p.y_coord > val then { p with y_coord := p.y_coord - val }
  else { p with y_coord := 0 }

/-- Source `inc_y`, symmetric to `inc_x`. -/
def inc_y {L : ℕ} (p : CoordPair L) (val : ℕ) : CoordPair L :=
  if (p.y_coord + val) % U32 < L then { p with y_coord := (p.y_coord + val) % U32 }
  else { p with y_coord := L - 1 }

/-- Source `IsCoordValid`: `x_coord < LIMIT && y_coord < LIMIT`. -/
def IsCoordValid {L : ℕ} (p : CoordPair L) : Bool :=
  decide (p.x_coord < L) && decide (p.y_coord < L)

/-- Source `normalize`: clamps each component to `min(c, LIMIT - 1)`. -/
def normalize {L : ℕ} (p : CoordPair L) : CoordPair L :=
  { x_coord := min p.x_coord (L - 1), y_coord := min p.y_coord (L - 1) }

/-- Source `GetId`: `y_coord * LIMIT + x_coord`, a `uint32` expression, so
taken modulo `2^32`. -/
def GetId {L : ℕ} (p : CoordPair L) : ℕ :=
  (p.y_coord * L + p.x_coord) % U32

/-- The `RET_TYPE(x_val, y_val)` constructor call in `Trinity::Compute`:
the C++ `int` values are converted to the `uint32` constructor parameters,
i.e. reduced modulo `2^32` (C++ [conv.integral]). -/
def ofInt (L : ℕ) (x y : ℤ) : CoordPair L :=
  { x_coord := (x % (U32 : ℤ)).toNat, y_coord := (y % (U32 : ℤ)).toNat }

end CoordPair

/-- Source typedef `GridCoord = CoordPair<MAX_NUMBER_OF_GRIDS>`. -/
abbrev GridCoord := CoordPair MAX_NUMBER_OF_GRIDS

/-- Source typedef `CellCoord = CoordPair<TOTAL_NUMBER_OF_CELLS_PER_MAP>`. -/
abbrev CellCoord := CoordPair TOTAL_NUMBER_OF_CELLS_PER_MAP

namespace Trinity

/-- Source `Trinity::Compute<RET_TYPE, CENTER_VAL>(x, y, center_offset, size)`:
scales each coordinate relative to the center, adds `CENTER_VAL + 0.5`, and
converts to `int` (truncation toward zero), then builds the coordinate pair. -/
def Compute (L : ℕ) (CENTER_VAL : ℤ) (x y center_offset size : ℚ) : CoordPair L :=
  let x_offset := (x - center_offset) / size
  let y_offset := (y - center_offset) / size
  let x_val := cppTrunc (x_offset + CENTER_VAL + 1/2)
  let y_val := cppTrunc (y_offset + CENTER_VAL + 1/2)
  CoordPair.ofInt L x_val y_val

/-- Source `Trinity::ComputeGridCoord`. -/
def ComputeGridCoord (x y : ℚ) : GridCoord :=
  Compute MAX_NUMBER_OF_GRIDS CENTER_GRID_ID x y CENTER_GRID_OFFSET SIZE_OF_GRIDS

/-- Source `Trinity::ComputeCellCoord(float x, float y)`. -/
def ComputeCellCoord (x y : ℚ) : CellCoord :=
  Compute TOTAL_NUMBER_OF_CELLS_PER_MAP CENTER_GRID_CELL_ID x y
    CENTER_GRID_CELL_OFFSET SIZE_OF_GRID_CELL

/-- Source `Trinity::ComputeCellCoord(float x, float y, float &x_off, float &y_off)`:
the overload recomputes the scaling inline (with the `0.5f` literal, whose
promoted double value is exactly `1/2`, identical to the plain overload's
`0.5`) and also returns the intra-cell offsets through `x_off`/`y_off`.
The result is the coordinate pair together with the two offsets. -/
def ComputeCellCoordOff (x y : ℚ) : CellCoord × ℚ × ℚ :=
  let x_offset := (x - CENTER_GRID_CELL_OFFSET) / SIZE_OF_GRID_CELL
  let y_offset := (y - CENTER_GRID_CELL_OFFSET) / SIZE_OF_GRID_CELL
  let x_val := cppTrunc (x_offset + CENTER_GRID_CELL_ID + 1/2)
  let y_val := cppTrunc (y_offset + CENTER_GRID_CELL_ID + 1/2)
  let x_off := (x_offset - x_val + CENTER_GRID_CELL_ID) * SIZE_OF_GRID_CELL
  let y_off := (y_offset - y_val + CENTER_GRID_CELL_ID) * SIZE_OF_GRID_CELL
  (CoordPair.ofInt TOTAL_NUMBER_OF_CELLS_PER_MAP x_val y_val, x_off, y_off)

/-- Source `Trinity::NormalizeMapCoord(float &c)`: clamps `c` into
`[-(MAP_HALFSIZE - 0.5f), MAP_HALFSIZE - 0.5f]`.  IEEE comparison semantics
on non-finite inputs: `+inf > bound` is true (clamped down), `-inf < -bound`
is true (clamped up), and both comparisons are false on NaN (left unchanged). -/
def NormalizeMapCoord : GFloat → GFloat
  | .finite q =>
      if q > VALID_BOUND then .finite VALID_BOUND
      else if q < -VALID_BOUND then .finite (-VALID_BOUND)
      else .finite q
  | .posInf => .finite VALID_BOUND
  | .negInf => .finite (-VALID_BOUND)
  | .nan => .nan

/-- Source `Trinity::IsValidMapCoord(float c)`:
`std::isfinite(c) && (std::fabs(c) <= MAP_HALFSIZE - 0.5f)`. -/
def IsValidMapCoord : GFloat → Bool
  | .finite q => decide (|q| ≤ VALID_BOUND)
  | _ => false

/-- Source two-argument overload of `Trinity::IsValidMapCoord`. -/
def IsValidMapCoord2 (x y : GFloat) : Bool :=
  IsValidMapCoord x && IsValidMapCoord y

/-- Source three-argument overload of `Trinity::IsValidMapCoord`. -/
def IsValidMapCoord3 (x y z : GFloat) : Bool :=
  IsValidMapCoord2 x y && IsValidMapCoord z

/-- Source four-argument overload of `Trinity::IsValidMapCoord`: the
orientation `o` is only checked with `std::isfinite`, not against the bound. -/
def IsValidMapCoord4 (x y z o : GFloat) : Bool :=
  IsValidMapCoord3 x y z && o.isFinite

end Trinity

/-- Reference component computation for claim C5, written from the spec's
words: scale the world coordinate relative to the map center by the fixed
grid/cell size (`(double(x) - center_offset) / size`), add the center index
plus `0.5`, and truncate to an integer. -/
def specScaledComponent (center_offset size : ℚ) (center_index : ℤ) (c : ℚ) : ℤ :=
  cppTrunc ((c - center_offset) / size + center_index + 1/2)

/-- Reference version of `ComputeGridCoord` for claim C5, assembled from
`specScaledComponent` with the grid size, grid center offset and center
grid index. -/
def ComputeGridCoordSpec (x y : ℚ) : GridCoord :=
  CoordPair.ofInt MAX_NUMBER_OF_GRIDS
    (specScaledComponent CENTER_GRID_OFFSET SIZE_OF_GRIDS CENTER_GRID_ID x)
    (specScaledComponent CENTER_GRID_OFFSET SIZE_OF_GRIDS CENTER_GRID_ID y)

/-- Reference version of `ComputeCellCoord` for claim C5, assembled from
`specScaledComponent` with the cell size, cell center offset and center
cell index. -/
def ComputeCellCoordSpec (x y : ℚ) : CellCoord :=
  CoordPair.ofInt TOTAL_NUMBER_OF_CELLS_PER_MAP
    (specScaledComponent CENTER_GRID_CELL_OFFSET SIZE_OF_GRID_CELL CENTER_GRID_CELL_ID x)
    (specScaledComponent CENTER_GRID_CELL_OFFSET SIZE_OF_GRID_CELL CENTER_GRID_CELL_ID y)

/-- Truncation toward zero agrees with `⌊⬝⌋` on nonnegative arguments. -/
theorem cppTrunc_of_nonneg (q : ℚ) (h : 0 ≤ q) : cppTrunc q = ⌊q⌋ :=
  if_pos h

/-- Value of the `uint32` modulus as a natural literal. -/
theorem U32_eq : U32 = 4294967296 := by norm_num [U32]

/-- The grid scaling of a single in-bounds coordinate: the truncation in
`Trinity::Compute` is a floor, and the scaled value lies in `[0, 64)`. -/
theorem grid_scalar_eq (c : ℚ) (h1 : -VALID_BOUND ≤ c) (h2 : c ≤ VALID_BOUND) :
    cppTrunc ((c - CENTER_GRID_OFFSET) / SIZE_OF_GRIDS + (CENTER_GRID_ID : ℚ) + 1/2)
      = ⌊c / SIZE_OF_GRIDS + 32⌋ ∧
    0 ≤ c / SIZE_OF_GRIDS + 32 ∧ c / SIZE_OF_GRIDS + 32 < 64 := by
  have hS : (0:ℚ) < SIZE_OF_GRIDS := by unfold SIZE_OF_GRIDS; norm_num
  have harg : (c - CENTER_GRID_OFFSET) / SIZE_OF_GRIDS + (CENTER_GRID_ID : ℚ) + 1/2
      = c / SIZE_OF_GRIDS + 32 := by
    unfold CENTER_GRID_OFFSET CENTER_GRID_ID
    push_cast
    field_simp
    ring
  have hdlo : -VALID_BOUND / SIZE_OF_GRIDS ≤ c / SIZE_OF_GRIDS :=
    (div_le_div_iff_of_pos_right hS).mpr h1
  have hdhi : c / SIZE_OF_GRIDS ≤ VALID_BOUND / SIZE_OF_GRIDS :=
    (div_le_div_iff_of_pos_right hS).mpr h2
  have hclo : (0:ℚ) < -VALID_BOUND / SIZE_OF_GRIDS + 32 := by
    unfold VALID_BOUND MAP_HALFSIZE MAP_SIZE SIZE_OF_GRIDS; norm_num
  have hchi : VALID_BOUND / SIZE_OF_GRIDS + 32 < 64 := by
    unfold VALID_BOUND MAP_HALFSIZE MAP_SIZE SIZE_OF_GRIDS; norm_num
  refine ⟨?_, by linarith, by linarith⟩
  rw [harg, cppTrunc_of_nonneg _ (by linarith)]

/-- The cell scaling of a single in-bounds coordinate: the truncation in
`Trinity::Compute` is a floor, and the scaled value lies in `[0, 512)`. -/
theorem cell_scalar_eq (c : ℚ) (h1 : -VALID_BOUND ≤ c) (h2 : c ≤ VALID_BOUND) :
    cppTrunc ((c - CENTER_GRID_CELL_OFFSET) / SIZE_OF_GRID_CELL + (CENTER_GRID_CELL_ID : ℚ) + 1/2)
      = ⌊c / SIZE_OF_GRID_CELL + 256⌋ ∧
    0 ≤ c / SIZE_OF_GRID_CELL + 256 ∧ c / SIZE_OF_GRID_CELL + 256 < 512 := by
  have hS : (0:ℚ) < SIZE_OF_GRID_CELL := by
    unfold SIZE_OF_GRID_CELL SIZE_OF_GRIDS; norm_num
  have harg : (c - CENTER_GRID_CELL_OFFSET) / SIZE_OF_GRID_CELL + (CENTER_GRID_CELL_ID : ℚ) + 1/2
      = c / SIZE_OF_GRID_CELL + 256 := by
    unfold CENTER_GRID_CELL_OFFSET CENTER_GRID_CELL_ID
    push_cast
    field_simp
    ring
  have hdlo : -VALID_BOUND / SIZE_OF_GRID_CELL ≤ c / SIZE_OF_GRID_CELL :=
    (div_le_div_iff_of_pos_right hS).mpr h1
  have hdhi : c / SIZE_OF_GRID_CELL ≤ VALID_BOUND / SIZE_OF_GRID_CELL :=
    (div_le_div_iff_of_pos_right hS).mpr h2
  have hclo : (0:ℚ) < -VALID_BOUND / SIZE_OF_GRID_CELL + 256 := by
    unfold VALID_BOUND MAP_HALFSIZE MAP_SIZE SIZE_OF_GRID_CELL SIZE_OF_GRIDS; norm_num
  have hchi : VALID_BOUND / SIZE_OF_GRID_CELL + 256 < 512 := by
    unfold VALID_BOUND MAP_HALFSIZE MAP_SIZE SIZE_OF_GRID_CELL SIZE_OF_GRIDS; norm_num
  refine ⟨?_, by linarith, by linarith⟩
  rw [harg, cppTrunc_of_nonneg _ (by linarith)]

/-- Cast of the `uint32` modulus as an integer literal. -/
theorem U32_int_eq : ((U32 : ℕ) : ℤ) = 4294967296 := by norm_num [U32]

/-- Components of the `RET_TYPE(x_val, y_val)` conversion when the `int`
values are already in `uint32` range. -/
theorem ofInt_eq_of_bounds (L : ℕ) (a b : ℤ) (ha0 : 0 ≤ a) (ha : a < 4294967296)
    (hb0 : 0 ≤ b) (hb : b < 4294967296) :
    CoordPair.ofInt L a b = ⟨a.toNat, b.toNat⟩ := by
  simp only [CoordPair.ofInt, U32_int_eq, CoordPair.mk.injEq]
  omega

/-- In-bounds evaluation of `ComputeGridCoord`: on coordinates within
`[-VALID_BOUND, VALID_BOUND]` the components are floors of the scaled values. -/
theorem computeGridCoord_eq (x y : ℚ)
    (hx1 : -VALID_BOUND ≤ x) (hx2 : x ≤ VALID_BOUND)
    (hy1 : -VALID_BOUND ≤ y) (hy2 : y ≤ VALID_BOUND) :
    Trinity.ComputeGridCoord x y
      = ⟨⌊x / SIZE_OF_GRIDS + 32⌋.toNat, ⌊y / SIZE_OF_GRIDS + 32⌋.toNat⟩ := by
  obtain ⟨ex, hx0, hx64⟩ := grid_scalar_eq x hx1 hx2
  obtain ⟨ey, hy0, hy64⟩ := grid_scalar_eq y hy1 hy2
  have hfx0 : (0:ℤ) ≤ ⌊x / SIZE_OF_GRIDS + 32⌋ := Int.floor_nonneg.mpr hx0
  have hfx : ⌊x / SIZE_OF_GRIDS + 32⌋ < 64 := Int.floor_lt.mpr (by exact_mod_cast hx64)
  have hfy0 : (0:ℤ) ≤ ⌊y / SIZE_OF_GRIDS + 32⌋ := Int.floor_nonneg.mpr hy0
  have hfy : ⌊y / SIZE_OF_GRIDS + 32⌋ < 64 := Int.floor_lt.mpr (by exact_mod_cast hy64)
  simp only [Trinity.ComputeGridCoord, Trinity.Compute]
  rw [ex, ey, ofInt_eq_of_bounds _ _ _ hfx0 (by omega) hfy0 (by omega)]

/-- In-bounds evaluation of `ComputeCellCoord`: on coordinates within
`[-VALID_BOUND, VALID_BOUND]` the components are floors of the scaled values. -/
theorem computeCellCoord_eq (x y : ℚ)
    (hx1 : -VALID_BOUND ≤ x) (hx2 : x ≤ VALID_BOUND)
    (hy1 : -VALID_BOUND ≤ y) (hy2 : y ≤ VALID_BOUND) :
    Trinity.ComputeCellCoord x y
      = ⟨⌊x / SIZE_OF_GRID_CELL + 256⌋.toNat, ⌊y / SIZE_OF_GRID_CELL + 256⌋.toNat⟩ := by
  obtain ⟨ex, hx0, hx512⟩ := cell_scalar_eq x hx1 hx2
  obtain ⟨ey, hy0, hy512⟩ := cell_scalar_eq y hy1 hy2
  have hfx0 : (0:ℤ) ≤ ⌊x / SIZE_OF_GRID_CELL + 256⌋ := Int.floor_nonneg.mpr hx0
  have hfx : ⌊x / SIZE_OF_GRID_CELL + 256⌋ < 512 := Int.floor_lt.mpr (by exact_mod_cast hx512)
  have hfy0 : (0:ℤ) ≤ ⌊y / SIZE_OF_GRID_CELL + 256⌋ := Int.floor_nonneg.mpr hy0
  have hfy : ⌊y / SIZE_OF_GRID_CELL + 256⌋ < 512 := Int.floor_lt.mpr (by exact_mod_cast hy512)
  simp only [Trinity.ComputeCellCoord, Trinity.Compute]
  rw [ex, ey, ofInt_eq_of_bounds _ _ _ hfx0 (by omega) hfy0 (by omega)]

/-- Unfolding of the two-argument validity check on finite inputs. -/
theorem isValidMapCoord2_finite (x y : ℚ) :
    Trinity.IsValidMapCoord2 (.finite x) (.finite y) = true
      ↔ (|x| ≤ VALID_BOUND ∧ |y| ≤ VALID_BOUND) := by
  simp [Trinity.IsValidMapCoord2, Trinity.IsValidMapCoord]

/-- Claim C1: for every position `(x, y)` accepted by `IsValidMapCoord`,
`ComputeCellCoord` returns a coordinate with both components in `[0, 512)`
and `ComputeGridCoord` one with both components in `[0, 64)`; equivalently
`IsCoordValid` holds on each result. -/
theorem claim_C1 (x y : ℚ)
    (h : Trinity.IsValidMapCoord2 (.finite x) (.finite y) = true) :
    (Trinity.ComputeCellCoord x y).x_coord < 512 ∧
    (Trinity.ComputeCellCoord x y).y_coord < 512 ∧
    (Trinity.ComputeGridCoord x y).x_coord < 64 ∧
    (Trinity.ComputeGridCoord x y).y_coord < 64 ∧
    (Trinity.ComputeCellCoord x y).IsCoordValid = true ∧
    (Trinity.ComputeGridCoord x y).IsCoordValid = true := by
  obtain ⟨hx, hy⟩ := (isValidMapCoord2_finite x y).mp h
  rw [abs_le] at hx hy
  obtain ⟨_, hcx0, hcx⟩ := cell_scalar_eq x hx.1 hx.2
  obtain ⟨_, hcy0, hcy⟩ := cell_scalar_eq y hy.1 hy.2
  obtain ⟨_, hgx0, hgx⟩ := grid_scalar_eq x hx.1 hx.2
  obtain ⟨_, hgy0, hgy⟩ := grid_scalar_eq y hy.1 hy.2
  rw [computeCellCoord_eq x y hx.1 hx.2 hy.1 hy.2,
    computeGridCoord_eq x y hx.1 hx.2 hy.1 hy.2]
  have fcx : ⌊x / SIZE_OF_GRID_CELL + 256⌋ < 512 := Int.floor_lt.mpr (by exact_mod_cast hcx)
  have fcy : ⌊y / SIZE_OF_GRID_CELL + 256⌋ < 512 := Int.floor_lt.mpr (by exact_mod_cast hcy)
  have fgx : ⌊x / SIZE_OF_GRIDS + 32⌋ < 64 := Int.floor_lt.mpr (by exact_mod_cast hgx)
  have fgy : ⌊y / SIZE_OF_GRIDS + 32⌋ < 64 := Int.floor_lt.mpr (by exact_mod_cast hgy)
  simp only [CoordPair.IsCoordValid, MAX_NUMBER_OF_GRIDS, TOTAL_NUMBER_OF_CELLS_PER_MAP,
    MAX_NUMBER_OF_CELLS, Bool.and_eq_true, decide_eq_true_eq]
  omega

/-- Claim C1 witness: the origin is a valid position and the conclusion of
`claim_C1` holds there. -/
theorem claim_C1_witness :
    Trinity.IsValidMapCoord2 (.finite 0) (.finite 0) = true ∧
    ((Trinity.ComputeCellCoord 0 0).x_coord < 512 ∧
     (Trinity.ComputeCellCoord 0 0).y_coord < 512 ∧
     (Trinity.ComputeGridCoord 0 0).x_coord < 64 ∧
     (Trinity.ComputeGridCoord 0 0).y_coord < 64 ∧
     (Trinity.ComputeCellCoord 0 0).IsCoordValid = true ∧
     (Trinity.ComputeGridCoord 0 0).IsCoordValid = true) := by
  have hv : Trinity.IsValidMapCoord2 (.finite 0) (.finite 0) = true := by
    rw [isValidMapCoord2_finite]
    unfold VALID_BOUND MAP_HALFSIZE MAP_SIZE SIZE_OF_GRIDS
    norm_num
  exact ⟨hv, claim_C1 0 0 hv⟩

/-- Claim C2 counterexample: at the out-of-bounds position
`(100000, 0)` the computed grid coordinate has `x_coord = 219`, which is
outside `[0, 64)` — `Compute` performs no clamping, so an out-of-bounds grid
index is produced. -/
theorem claim_C2_counterexample :
    (Trinity.ComputeGridCoord 100000 0).x_coord = 219 ∧
    (Trinity.ComputeGridCoord 100000 0).IsCoordValid = false := by
  have h : Trinity.ComputeGridCoord 100000 0 = ⟨219, 32⟩ := by
    simp only [Trinity.ComputeGridCoord, Trinity.Compute, CoordPair.ofInt, CoordPair.mk.injEq]
    norm_num [cppTrunc, CENTER_GRID_OFFSET, SIZE_OF_GRIDS, CENTER_GRID_ID, U32]
    omega
  rw [h]
  constructor
  · rfl
  · decide

/-- Claim C2 amended: `Compute` itself does not clamp (see the
counterexample); clamping is the separate explicit `CoordPair::normalize`
step, which sets each component to `min(component, LIMIT - 1)` — a valid
coordinate whenever `LIMIT > 0` — and leaves already-valid coordinates
unchanged. -/
theorem claim_C2_amended {L : ℕ} (hL : 0 < L) (p : CoordPair L) :
    (p.normalize).x_coord = min p.x_coord (L - 1) ∧
    (p.normalize).y_coord = min p.y_coord (L - 1) ∧
    (p.normalize).IsCoordValid = true ∧
    (p.IsCoordValid = true → p.normalize = p) := by
  cases p with
  | mk px py =>
    simp only [CoordPair.normalize, CoordPair.IsCoordValid, CoordPair.mk.injEq,
      Bool.and_eq_true, decide_eq_true_eq]
    refine ⟨trivial, trivial, ?_, ?_⟩ <;> omega

/-- Claim C2 amended witness: `normalize` at a concrete valid coordinate. -/
theorem claim_C2_amended_witness :
    (0 < 64) ∧
    (((⟨10, 3⟩ : CoordPair 64).normalize.x_coord = min 10 (64 - 1)) ∧
     ((⟨10, 3⟩ : CoordPair 64).normalize.y_coord = min 3 (64 - 1)) ∧
     ((⟨10, 3⟩ : CoordPair 64).normalize.IsCoordValid = true) ∧
     ((⟨10, 3⟩ : CoordPair 64).IsCoordValid = true → (⟨10, 3⟩ : CoordPair 64).normalize = ⟨10, 3⟩)) :=
  ⟨by decide, claim_C2_amended (by decide) ⟨10, 3⟩⟩

/-- Claim C6: `ComputeGridCoord(0, 0)` is the center grid coordinate
`(32, 32)` and `ComputeCellCoord(0, 0)` is the center cell coordinate
`(256, 256)` (`CENTER_GRID_ID` resp. `CENTER_GRID_CELL_ID` in both
components). -/
theorem claim_C6 :
    Trinity.ComputeGridCoord 0 0 = ⟨32, 32⟩ ∧
    Trinity.ComputeCellCoord 0 0 = ⟨256, 256⟩ := by
  constructor
  · simp only [Trinity.ComputeGridCoord, Trinity.Compute, CoordPair.ofInt, CoordPair.mk.injEq]
    norm_num [cppTrunc, CENTER_GRID_OFFSET, SIZE_OF_GRIDS, CENTER_GRID_ID, U32]
    omega
  · simp only [Trinity.ComputeCellCoord, Trinity.Compute, CoordPair.ofInt, CoordPair.mk.injEq]
    norm_num [cppTrunc, CENTER_GRID_CELL_OFFSET, SIZE_OF_GRID_CELL, SIZE_OF_GRIDS,
      CENTER_GRID_CELL_ID, U32]
    omega

/-- Claim C7: on valid positions the cell and grid coordinates nest exactly:
each component of `ComputeCellCoord` divided by `MAX_NUMBER_OF_CELLS = 8`
(integer division) equals the corresponding component of `ComputeGridCoord`. -/
theorem claim_C7 (x y : ℚ)
    (h : Trinity.IsValidMapCoord2 (.finite x) (.finite y) = true) :
    (Trinity.ComputeCellCoord x y).x_coord / MAX_NUMBER_OF_CELLS
      = (Trinity.ComputeGridCoord x y).x_coord ∧
    (Trinity.ComputeCellCoord x y).y_coord / MAX_NUMBER_OF_CELLS
      = (Trinity.ComputeGridCoord x y).y_coord := by
  obtain ⟨hx, hy⟩ := (isValidMapCoord2_finite x y).mp h
  rw [abs_le] at hx hy
  rw [computeCellCoord_eq x y hx.1 hx.2 hy.1 hy.2,
    computeGridCoord_eq x y hx.1 hx.2 hy.1 hy.2]
  have key : ∀ c : ℚ, ⌊c / SIZE_OF_GRID_CELL + 256⌋.toNat / MAX_NUMBER_OF_CELLS
      = ⌊c / SIZE_OF_GRIDS + 32⌋.toNat := by
    intro c
    have hcell : c / SIZE_OF_GRID_CELL + 256 = 8 * (c / SIZE_OF_GRIDS + 32) := by
      unfold SIZE_OF_GRID_CELL SIZE_OF_GRIDS
      field_simp
      ring
    rw [hcell, Int.floor_toNat, Int.floor_toNat]
    have h8 : (8 : ℚ) * (c / SIZE_OF_GRIDS + 32) / ((8 : ℕ) : ℚ) = c / SIZE_OF_GRIDS + 32 := by
      push_cast
      ring
    calc ⌊(8 : ℚ) * (c / SIZE_OF_GRIDS + 32)⌋₊ / MAX_NUMBER_OF_CELLS
        = ⌊(8 : ℚ) * (c / SIZE_OF_GRIDS + 32) / ((8 : ℕ) : ℚ)⌋₊ :=
          (Nat.floor_div_nat ((8 : ℚ) * (c / SIZE_OF_GRIDS + 32)) 8).symm
      _ = ⌊c / SIZE_OF_GRIDS + 32⌋₊ := by rw [h8]
  exact ⟨key x, key y⟩

/-- Claim C7 witness: the nesting relation at the valid position `(0, 0)`. -/
theorem claim_C7_witness :
    Trinity.IsValidMapCoord2 (.finite 0) (.finite 0) = true ∧
    ((Trinity.ComputeCellCoord 0 0).x_coord / MAX_NUMBER_OF_CELLS
       = (Trinity.ComputeGridCoord 0 0).x_coord ∧
     (Trinity.ComputeCellCoord 0 0).y_coord / MAX_NUMBER_OF_CELLS
       = (Trinity.ComputeGridCoord 0 0).y_coord) := by
  have hv : Trinity.IsValidMapCoord2 (.finite 0) (.finite 0) = true := by
    rw [isValidMapCoord2_finite]
    unfold VALID_BOUND MAP_HALFSIZE MAP_SIZE SIZE_OF_GRIDS
    norm_num
  exact ⟨hv, claim_C7 0 0 hv⟩

/-- Claim C3 counterexample: the four-argument `IsValidMapCoord` accepts an
orientation component whose absolute value exceeds `MAP_HALFSIZE - 0.5`
(it only checks `std::isfinite(o)`), so "every supplied component is within
the half-size bound" does not hold of the returned `true`. -/
theorem claim_C3_counterexample :
    Trinity.IsValidMapCoord4 (.finite 0) (.finite 0) (.finite 0) (.finite 20000) = true ∧
    Trinity.IsValidMapCoord (.finite 20000) = false := by
  constructor
  · simp only [Trinity.IsValidMapCoord4, Trinity.IsValidMapCoord3, Trinity.IsValidMapCoord2,
      Trinity.IsValidMapCoord, GFloat.isFinite, Bool.and_eq_true, Bool.and_true,
      decide_eq_true_eq, abs_zero]
    unfold VALID_BOUND MAP_HALFSIZE MAP_SIZE SIZE_OF_GRIDS
    norm_num
  · simp only [Trinity.IsValidMapCoord, decide_eq_false_iff_not]
    rw [show |(20000:ℚ)| = 20000 from abs_of_pos (by norm_num)]
    unfold VALID_BOUND MAP_HALFSIZE MAP_SIZE SIZE_OF_GRIDS
    norm_num

/-- Claim C3 amended: a single coordinate is valid iff it is finite and its
absolute value is at most `MAP_HALFSIZE - 0.5` (so exact-boundary values are
valid); the two- and three-argument overloads check each positional
component the same way; the four-argument overload checks `x`, `y`, `z` the
same way but only requires the orientation `o` to be finite, without the
half-size bound. -/
theorem claim_C3_amended :
    (∀ q : ℚ, Trinity.IsValidMapCoord (.finite q) = true ↔ |q| ≤ VALID_BOUND) ∧
    (∀ c : GFloat, c.isFinite = false → Trinity.IsValidMapCoord c = false) ∧
    Trinity.IsValidMapCoord (.finite VALID_BOUND) = true ∧
    Trinity.IsValidMapCoord (.finite (-VALID_BOUND)) = true ∧
    (∀ x y : GFloat, Trinity.IsValidMapCoord2 x y
      = (Trinity.IsValidMapCoord x && Trinity.IsValidMapCoord y)) ∧
    (∀ x y z : GFloat, Trinity.IsValidMapCoord3 x y z
      = (Trinity.IsValidMapCoord2 x y && Trinity.IsValidMapCoord z)) ∧
    (∀ x y z o : GFloat, Trinity.IsValidMapCoord4 x y z o
      = (Trinity.IsValidMapCoord3 x y z && o.isFinite)) := by
  have hB : (0:ℚ) < VALID_BOUND := by
    unfold VALID_BOUND MAP_HALFSIZE MAP_SIZE SIZE_OF_GRIDS; norm_num
  refine ⟨?_, ?_, ?_, ?_, fun _ _ => rfl, fun _ _ _ => rfl, fun _ _ _ _ => rfl⟩
  · intro q
    simp [Trinity.IsValidMapCoord]
  · intro c hc
    cases c with
    | finite q => simp [GFloat.isFinite] at hc
    | posInf => rfl
    | negInf => rfl
    | nan => rfl
  · simp only [Trinity.IsValidMapCoord, decide_eq_true_eq]
    rw [abs_of_pos hB]
  · simp only [Trinity.IsValidMapCoord, decide_eq_true_eq]
    rw [abs_neg, abs_of_pos hB]

/-- Claim C3 amended witness: concrete instances — a small finite coordinate
is valid and a non-finite one is rejected. -/
theorem claim_C3_amended_witness :
    Trinity.IsValidMapCoord (.finite 5) = true ∧
    Trinity.IsValidMapCoord .nan = false := by
  constructor
  · refine (claim_C3_amended.1 5).mpr ?_
    rw [show |(5:ℚ)| = 5 from abs_of_pos (by norm_num)]
    unfold VALID_BOUND MAP_HALFSIZE MAP_SIZE SIZE_OF_GRIDS
    norm_num
  · exact claim_C3_amended.2.1 .nan rfl

/-- Claim C4: for every finite coordinate, `NormalizeMapCoord` produces a
value accepted by `IsValidMapCoord`; it leaves already-valid coordinates
unchanged; and it is idempotent. -/
theorem claim_C4 (q : ℚ) :
    Trinity.IsValidMapCoord (Trinity.NormalizeMapCoord (.finite q)) = true ∧
    (Trinity.IsValidMapCoord (.finite q) = true →
      Trinity.NormalizeMapCoord (.finite q) = .finite q) ∧
    Trinity.NormalizeMapCoord (Trinity.NormalizeMapCoord (.finite q))
      = Trinity.NormalizeMapCoord (.finite q) := by
  have hB : (0:ℚ) < VALID_BOUND := by
    unfold VALID_BOUND MAP_HALFSIZE MAP_SIZE SIZE_OF_GRIDS; norm_num
  have hvalid : ∀ r : ℚ, |r| ≤ VALID_BOUND →
      Trinity.NormalizeMapCoord (.finite r) = .finite r := by
    intro r hr
    rw [abs_le] at hr
    simp only [Trinity.NormalizeMapCoord]
    rw [if_neg (by linarith), if_neg (by linarith)]
  by_cases h1 : q > VALID_BOUND
  · have e : Trinity.NormalizeMapCoord (.finite q) = .finite VALID_BOUND := by
      simp only [Trinity.NormalizeMapCoord, if_pos h1]
    have hvB : |VALID_BOUND| ≤ VALID_BOUND := le_of_eq (abs_of_pos hB)
    refine ⟨?_, ?_, ?_⟩
    · rw [e]
      simp only [Trinity.IsValidMapCoord, decide_eq_true_eq]
      exact hvB
    · intro hv
      simp only [Trinity.IsValidMapCoord, decide_eq_true_eq, abs_le] at hv
      linarith
    · rw [e, hvalid _ hvB]
  · by_cases h2 : q < -VALID_BOUND
    · have e : Trinity.NormalizeMapCoord (.finite q) = .finite (-VALID_BOUND) := by
        simp only [Trinity.NormalizeMapCoord, if_neg h1, if_pos h2]
      have hvB : |(-VALID_BOUND)| ≤ VALID_BOUND := by
        rw [abs_neg]
        exact le_of_eq (abs_of_pos hB)
      refine ⟨?_, ?_, ?_⟩
      · rw [e]
        simp only [Trinity.IsValidMapCoord, decide_eq_true_eq]
        exact hvB
      · intro hv
        simp only [Trinity.IsValidMapCoord, decide_eq_true_eq, abs_le] at hv
        linarith
      · rw [e, hvalid _ hvB]
    · have hq : |q| ≤ VALID_BOUND := abs_le.mpr ⟨by linarith, by linarith⟩
      have e := hvalid q hq
      refine ⟨?_, fun _ => e, by rw [e, e]⟩
      rw [e]
      simp only [Trinity.IsValidMapCoord, decide_eq_true_eq]
      exact hq

/-- Claim C4 witness: `NormalizeMapCoord` at the concrete coordinate 3. -/
theorem claim_C4_witness :
    Trinity.IsValidMapCoord (Trinity.NormalizeMapCoord (.finite 3)) = true ∧
    (Trinity.IsValidMapCoord (.finite 3) = true →
      Trinity.NormalizeMapCoord (.finite 3) = .finite 3) ∧
    Trinity.NormalizeMapCoord (Trinity.NormalizeMapCoord (.finite 3))
      = Trinity.NormalizeMapCoord (.finite 3) :=
  claim_C4 3

/-- Claim C5: `ComputeGridCoord` and `ComputeCellCoord` coincide with the
reference definitions written from the spec (scale relative to the map
center by the fixed size, add the center index plus `0.5`, truncate to an
integer). -/
theorem claim_C5 :
    (∀ x y : ℚ, Trinity.ComputeGridCoord x y = ComputeGridCoordSpec x y) ∧
    (∀ x y : ℚ, Trinity.ComputeCellCoord x y = ComputeCellCoordSpec x y) :=
  ⟨fun _ _ => rfl, fun _ _ => rfl⟩

/-- Claim C9: the offset-computing overload of `ComputeCellCoord` returns
the same cell coordinate as the plain overload (the promoted value of the
`0.5f` literal is exactly `0.5`, and the inline scaling is the same
computation as `Trinity::Compute`). -/
theorem claim_C9 (x y : ℚ) :
    (Trinity.ComputeCellCoordOff x y).1 = Trinity.ComputeCellCoord x y :=
  rfl

/-- Claim C8: on a valid `CoordPair` each of `inc_x`, `inc_y`, `dec_x`,
`dec_y` preserves `IsCoordValid`; `dec_x` performs truncated subtraction
(`x - val` when `x > val`, else `0`) and `inc_x` saturates (the 32-bit sum
`x + val` when it is below `LIMIT`, else `LIMIT - 1`). -/
theorem claim_C8 {L : ℕ} (p : CoordPair L) (val : ℕ)
    (hp : p.IsCoordValid = true) (_hval : val < U32) :
    ((p.inc_x val).IsCoordValid = true ∧ (p.inc_y val).IsCoordValid = true ∧
     (p.dec_x val).IsCoordValid = true ∧ (p.dec_y val).IsCoordValid = true) ∧
    ((p.dec_x val).x_coord = if val < p.x_coord then p.x_coord - val else 0) ∧
    ((p.dec_y val).y_coord = if val < p.y_coord then p.y_coord - val else 0) ∧
    ((p.inc_x val).x_coord
      = if (p.x_coord + val) % U32 < L then (p.x_coord + val) % U32 else L - 1) ∧
    ((p.inc_y val).y_coord
      = if (p.y_coord + val) % U32 < L then (p.y_coord + val) % U32 else L - 1) := by
  cases p with
  | mk px py =>
    simp only [CoordPair.IsCoordValid, Bool.and_eq_true, decide_eq_true_eq] at hp
    obtain ⟨hx, hy⟩ := hp
    refine ⟨⟨?_, ?_, ?_, ?_⟩, ?_, ?_, ?_, ?_⟩
    · simp only [CoordPair.inc_x, CoordPair.IsCoordValid]
      split_ifs with h <;> simp only [Bool.and_eq_true, decide_eq_true_eq] <;>
        exact ⟨by omega, hy⟩
    · simp only [CoordPair.inc_y, CoordPair.IsCoordValid]
      split_ifs with h <;> simp only [Bool.and_eq_true, decide_eq_true_eq] <;>
        exact ⟨hx, by omega⟩
    · simp only [CoordPair.dec_x, CoordPair.IsCoordValid]
      split_ifs with h <;> simp only [Bool.and_eq_true, decide_eq_true_eq] <;>
        exact ⟨by omega, hy⟩
    · simp only [CoordPair.dec_y, CoordPair.IsCoordValid]
      split_ifs with h <;> simp only [Bool.and_eq_true, decide_eq_true_eq] <;>
        exact ⟨hx, by omega⟩
    · simp only [CoordPair.dec_x]
      split_ifs with h <;> rfl
    · simp only [CoordPair.dec_y]
      split_ifs with h <;> rfl
    · simp only [CoordPair.inc_x]
      split_ifs with h <;> rfl
    · simp only [CoordPair.inc_y]
      split_ifs with h <;> rfl

/-- Claim C8 witness: the four operations at the concrete valid coordinate
`(3, 5)` of a `CoordPair<64>` with `val = 2`. -/
theorem claim_C8_witness :
    (⟨3, 5⟩ : CoordPair 64).IsCoordValid = true ∧ 2 < U32 ∧
    ((((⟨3, 5⟩ : CoordPair 64).inc_x 2).IsCoordValid = true ∧
      ((⟨3, 5⟩ : CoordPair 64).inc_y 2).IsCoordValid = true ∧
      ((⟨3, 5⟩ : CoordPair 64).dec_x 2).IsCoordValid = true ∧
      ((⟨3, 5⟩ : CoordPair 64).dec_y 2).IsCoordValid = true) ∧
     (((⟨3, 5⟩ : CoordPair 64).dec_x 2).x_coord = if 2 < 3 then 3 - 2 else 0) ∧
     (((⟨3, 5⟩ : CoordPair 64).dec_y 2).y_coord = if 2 < 5 then 5 - 2 else 0) ∧
     (((⟨3, 5⟩ : CoordPair 64).inc_x 2).x_coord
       = if (3 + 2) % U32 < 64 then (3 + 2) % U32 else 64 - 1) ∧
     (((⟨3, 5⟩ : CoordPair 64).inc_y 2).y_coord
       = if (5 + 2) % U32 < 64 then (5 + 2) % U32 else 64 - 1)) :=
  ⟨by decide, by decide, claim_C8 ⟨3, 5⟩ 2 (by decide) (by decide)⟩

/-- Claim C10 counterexample: for `LIMIT = 2^32 - 1` (a legal `uint32`
template argument), `GetId` wraps modulo `2^32` and collides on the valid
coordinates `(0, 0)` and `(1, 1)`: `1 * (2^32 - 1) + 1 = 2^32 ≡ 0`.  So
`GetId` is not injective on valid coordinates for every `LIMIT`. -/
theorem claim_C10_counterexample :
    (⟨0, 0⟩ : CoordPair 4294967295).IsCoordValid = true ∧
    (⟨1, 1⟩ : CoordPair 4294967295).IsCoordValid = true ∧
    (⟨0, 0⟩ : CoordPair 4294967295).GetId = (⟨1, 1⟩ : CoordPair 4294967295).GetId ∧
    (⟨0, 0⟩ : CoordPair 4294967295) ≠ (⟨1, 1⟩ : CoordPair 4294967295) := by
  refine ⟨by decide, by decide, ?_, by decide⟩
  show (0 * 4294967295 + 0) % U32 = (1 * 4294967295 + 1) % U32
  rw [U32_eq]

/-- Claim C10 amended: whenever `LIMIT * LIMIT ≤ 2^32` (as holds for the two
instantiations `GridCoord` with `LIMIT = 64` and `CellCoord` with
`LIMIT = 512`), `GetId` of a valid coordinate is below `LIMIT * LIMIT`, and
two valid coordinates have equal ids iff they are equal componentwise. -/
theorem claim_C10_amended {L : ℕ} (hL : L * L ≤ U32) (p q : CoordPair L)
    (hp : p.IsCoordValid = true) (hq : q.IsCoordValid = true) :
    p.GetId < L * L ∧ (p.GetId = q.GetId ↔ p = q) := by
  cases p with
  | mk px py =>
    cases q with
    | mk qx qy =>
      simp only [CoordPair.IsCoordValid, Bool.and_eq_true, decide_eq_true_eq] at hp hq
      obtain ⟨hpx, hpy⟩ := hp
      obtain ⟨hqx, hqy⟩ := hq
      have hL0 : 0 < L := lt_of_le_of_lt (Nat.zero_le px) hpx
      have hbound : ∀ a b : ℕ, a < L → b < L → b * L + a < L * L := by
        intro a b ha hb
        calc b * L + a < b * L + L := by omega
          _ = (b + 1) * L := by ring
          _ ≤ L * L := Nat.mul_le_mul_right L (by omega)
      have e1 : (⟨px, py⟩ : CoordPair L).GetId = py * L + px :=
        Nat.mod_eq_of_lt (lt_of_lt_of_le (hbound px py hpx hpy) hL)
      have e2 : (⟨qx, qy⟩ : CoordPair L).GetId = qy * L + qx :=
        Nat.mod_eq_of_lt (lt_of_lt_of_le (hbound qx qy hqx hqy) hL)
      rw [e1, e2]
      refine ⟨hbound px py hpx hpy, ?_, ?_⟩
      · intro h
        have hx' : px = qx := by
          have h1 : (L * py + px) % L = (L * qy + qx) % L := by
            rw [mul_comm L py, mul_comm L qy, h]
          rwa [Nat.mul_add_mod, Nat.mul_add_mod, Nat.mod_eq_of_lt hpx,
            Nat.mod_eq_of_lt hqx] at h1
        have hy' : py = qy := Nat.eq_of_mul_eq_mul_right hL0 (by omega)
        rw [hx', hy']
      · intro h
        rw [show px = qx from congrArg CoordPair.x_coord h,
          show py = qy from congrArg CoordPair.y_coord h]

/-- Claim C10 amended witness: the id bound and the id/coordinate
equivalence at the concrete valid `CoordPair<64>` coordinate `(3, 4)`. -/
theorem claim_C10_amended_witness :
    64 * 64 ≤ U32 ∧
    (⟨3, 4⟩ : CoordPair 64).IsCoordValid = true ∧
    ((⟨3, 4⟩ : CoordPair 64).GetId < 64 * 64 ∧
     ((⟨3, 4⟩ : CoordPair 64).GetId = (⟨3, 4⟩ : CoordPair 64).GetId ↔
       (⟨3, 4⟩ : CoordPair 64) = (⟨3, 4⟩ : CoordPair 64))) :=
  ⟨by decide, by decide, claim_C10_amended (by decide) ⟨3, 4⟩ ⟨3, 4⟩ (by decide) (by decide)⟩
